import Mathlib

/-!
Verification development for the Sage Ridge curing-chamber controller
(`src/UVCuring/UVCuring.ino`, plus the earlier unnamed variant
`src/unnamed/part_000`).

Modelling conventions:
* Digital levels are booleans: `true` models the Arduino `HIGH` level and
  `false` models `LOW`.
* `millis()` is modelled as a single unbounded natural number `now` per pass
  of `loop` (the sketch rereads `millis()` several times inside one pass, but
  no blocking code runs between those reads; the 32-bit rollover after
  roughly 49.7 days is outside the model, matching the sketch's own FIXME
  comment and the specification's acknowledgement of the rollover edge case).
* Temperatures are embedded as rationals (exact-real semantics of the float
  computation); IEEE special values are modelled separately by the `EF`
  type where the claim is specifically about division by zero at the ADC
  extremes.
-/

namespace UVCuring

/-- The five digital outputs written by `loop`:
`relay_one` (heater bed relay, pin 12), `relay_two` (UV LED relay, pin 11),
`LED01` (first red LED, pin 3), `LED02` (second red LED, pin 4),
`LED03` (amber power LED, pin 5). `true` is the `HIGH` level. -/
structure Outputs where
  relay_one : Bool
  relay_two : Bool
  led01 : Bool
  led02 : Bool
  led03 : Bool
  deriving DecidableEq

/-- Mutable global control state of the sketch: `buttonState` and
`lastButtonState` (debouncer, `LOW = false`), `lastDebounceTime`,
`cycle_run`, `heating`, `start_time`, `finish_time`, and the currently
driven output levels. -/
structure Ctl where
  buttonState : Bool
  lastButtonState : Bool
  lastDebounceTime : Nat
  cycle_run : Bool
  heating : Bool
  start_time : Nat
  finish_time : Nat
  out : Outputs
  deriving DecidableEq

/-- Target curing chamber temperature in degrees C (`target_temp = 60`). -/
def target_temp : ℚ := 60

/-- Target curing time in milliseconds (`target_time = 7200000`, 120 min). -/
def target_time : Nat := 7200000

/-- Debounce window in milliseconds (`debounceDelay = 75`). -/
def debounceDelay : Nat := 75

/-- Output levels written by the Idle / terminate branches of `loop`
(lines 140-156): both relays `LOW`, red LEDs `LOW`, amber LED `HIGH`. -/
def idleOutputs : Outputs := ⟨false, false, false, false, true⟩

/-- Lines 113-126 of `UVCuring.ino` (debounce and toggle), together with the
`lastButtonState = reading` update of line 201 (no statement between them
reads `lastButtonState`, so folding it in is semantics-preserving).
`reading` is `digitalRead(go_button)`; a press reads `LOW = false` because
the button pin uses `INPUT_PULLUP`.  On a committed falling edge the sketch
toggles `cycle_run` and sets `finish_time = millis() + target_time`. -/
def buttonPhase (s : Ctl) (now : Nat) (reading : Bool) : Ctl :=
  let ldt := if reading ≠ s.lastButtonState then now else s.lastDebounceTime
  if debounceDelay < now - ldt then
    if reading ≠ s.buttonState then
      if reading = false then
        { s with buttonState := reading, lastButtonState := reading,
                 lastDebounceTime := ldt,
                 cycle_run := !s.cycle_run,
                 finish_time := now + target_time }
      else
        { s with buttonState := reading, lastButtonState := reading,
                 lastDebounceTime := ldt }
    else
      { s with lastButtonState := reading, lastDebounceTime := ldt }
  else
    { s with lastButtonState := reading, lastDebounceTime := ldt }

/-- Lines 132-137 of `UVCuring.ino`: while running, `start_time = millis()`
every pass; while not running both timestamps are zeroed. -/
def timestampPhase (s : Ctl) (now : Nat) : Ctl :=
  if s.cycle_run then { s with start_time := now }
  else { s with finish_time := 0, start_time := 0 }

/-- Lines 140-180 of `UVCuring.ino`: the five-branch cycle controller.
Branch conditions are transcribed literally; `plate_temp` is the plate
thermistor temperature the sketch compares against `target_temp`. -/
def cyclePhase (s : Ctl) (now : Nat) (plate_temp : ℚ) : Ctl :=
  if s.cycle_run = false then
    { s with heating := false, out := idleOutputs }
  else if s.cycle_run ∧ s.finish_time ≤ now then
    { s with cycle_run := false, heating := false, out := idleOutputs }
  else if s.cycle_run ∧ now < s.finish_time ∧ plate_temp < target_temp then
    { s with heating := true, out := ⟨true, true, true, true, false⟩ }
  else if s.cycle_run ∧ now < s.finish_time ∧ target_temp ≤ plate_temp then
    { s with heating := false, out := ⟨true, false, true, false, false⟩ }
  else
    { s with heating := false, out := idleOutputs }

/-- One full pass of `loop` on the control state: debounce/toggle, then the
timestamp bookkeeping, then the cycle controller. -/
def tick (s : Ctl) (now : Nat) (reading : Bool) (plate_temp : ℚ) : Ctl :=
  cyclePhase (timestampPhase (buttonPhase s now reading) now) now plate_temp

/-- State after `setup()`: all globals zero-initialised, `heating = 0`,
relays driven `LOW`, red LEDs `LOW`, amber LED `HIGH`. -/
def setupState : Ctl :=
  { buttonState := false, lastButtonState := false, lastDebounceTime := 0,
    cycle_run := false, heating := false, start_time := 0, finish_time := 0,
    out := idleOutputs }

/-- A concrete running state used to exhibit the at-temperature branch. -/
def runningState : Ctl :=
  { buttonState := false, lastButtonState := false, lastDebounceTime := 0,
    cycle_run := true, heating := true, start_time := 0,
    finish_time := 7200000, out := ⟨true, true, true, true, false⟩ }

/-- Claim C3: whenever the cycle controller runs with `cycle_run = true`,
`finish_time > now` and plate temperature strictly below `target_temp`, it
takes the Heating branch: `heating = 1` and it writes heater relay `HIGH`,
UV relay `HIGH`, both red LEDs `HIGH`, amber LED `LOW` (lines 157-164;
`HIGH` is the energized/ON level for the relays in this sketch, per the
`setup` comment "Open with LOW, closed with HIGH" and the Idle branch). -/
theorem cyclePhase_heating (s : Ctl) (now : Nat) (t : ℚ)
    (hrun : s.cycle_run = true) (hft : now < s.finish_time)
    (htemp : t < target_temp) :
    (cyclePhase s now t).heating = true ∧
    (cyclePhase s now t).cycle_run = true ∧
    (cyclePhase s now t).out = ⟨true, true, true, true, false⟩ := by
  have hft' : ¬ s.finish_time ≤ now := Nat.not_le.mpr hft
  simp [cyclePhase, hrun, hft', hft, htemp]

/-- Witness for C3: the Heating branch at a concrete running state with
`now = 0 < finish_time = 7200000` and plate temperature `40 < 60`. -/
theorem cyclePhase_heating_witness :
    (cyclePhase runningState 0 40).heating = true ∧
    (cyclePhase runningState 0 40).cycle_run = true ∧
    (cyclePhase runningState 0 40).out = ⟨true, true, true, true, false⟩ :=
  cyclePhase_heating runningState 0 40 (by decide) (by decide) (by decide)

/-- Claim C2: whenever the cycle controller runs with `cycle_run = true` and
`finish_time ≤ now`, the cycle auto-terminates on that pass: `cycle_run` is
cleared, `heating` is cleared, and the Idle output levels are driven
(heater relay `LOW`, UV relay `LOW`, red LEDs `LOW`, amber LED `HIGH`;
lines 148-156). -/
theorem cyclePhase_timeout (s : Ctl) (now : Nat) (t : ℚ)
    (hrun : s.cycle_run = true) (hft : s.finish_time ≤ now) :
    (cyclePhase s now t).cycle_run = false ∧
    (cyclePhase s now t).heating = false ∧
    (cyclePhase s now t).out = idleOutputs := by
  simp [cyclePhase, hrun, hft]

/-- Witness for C2: auto-termination at a concrete running state whose
`finish_time = 7200000` has passed (`now = 7200000`). -/
theorem cyclePhase_timeout_witness :
    (cyclePhase runningState 7200000 40).cycle_run = false ∧
    (cyclePhase runningState 7200000 40).heating = false ∧
    (cyclePhase runningState 7200000 40).out = idleOutputs :=
  cyclePhase_timeout runningState 7200000 40 (by decide) (by decide)

/-- Claim C1 (failing-input evaluation): at the same running state with
`finish_time > now`, the controller writes heater relay `HIGH` and UV relay
`LOW` in the at-temperature branch (`plate_temp = 65 ≥ 60`, lines 165-172) —
the very same heater level as the Heating branch (`plate_temp = 40`), and
the Idle level for the UV relay.  Since `HIGH` is this sketch's
closed/energized relay level (setup comment, Idle and Heating branches),
reaching the target temperature leaves the heater energized and switches
the UV lights off, contradicting the file's own usage header ("The UV
lights will immediately turn on ... the heating plate should cycle on and
off") and the claimed heater-OFF / UV-ON behaviour.  The LED part of the
claim (one red LED on, second off, amber off) does hold. -/
theorem cyclePhase_atTemperature_eval :
    (cyclePhase runningState 0 65).out = ⟨true, false, true, false, false⟩ ∧
    (cyclePhase runningState 0 65).heating = false ∧
    (cyclePhase runningState 0 40).out = ⟨true, true, true, true, false⟩ ∧
    (cyclePhase runningState 0 65).out.relay_one =
      (cyclePhase runningState 0 40).out.relay_one := by
  decide

/-- Condition under which lines 118-126 commit a new debounced value:
the (possibly just reset) `lastDebounceTime` lies more than `debounceDelay`
in the past and the reading differs from the committed `buttonState`. -/
def commitCond (s : Ctl) (now : Nat) (reading : Bool) : Prop :=
  debounceDelay <
    now - (if reading ≠ s.lastButtonState then now else s.lastDebounceTime) ∧
  reading ≠ s.buttonState

instance (s : Ctl) (now : Nat) (reading : Bool) :
    Decidable (commitCond s now reading) := by
  unfold commitCond; infer_instance

/-- Condition for a qualifying press edge: a committed edge whose new value
is `LOW` (the pressed level on the pulled-up button pin), which is the only
case in which lines 121-124 toggle `cycle_run`. -/
def pressCommit (s : Ctl) (now : Nat) (reading : Bool) : Prop :=
  commitCond s now reading ∧ reading = false

instance (s : Ctl) (now : Nat) (reading : Bool) :
    Decidable (pressCommit s now reading) := by
  unfold pressCommit; infer_instance

theorem buttonPhase_lastButtonState (s : Ctl) (now : Nat) (r : Bool) :
    (buttonPhase s now r).lastButtonState = r := by
  simp only [buttonPhase]
  split_ifs <;> rfl

theorem buttonPhase_lastDebounceTime (s : Ctl) (now : Nat) (r : Bool) :
    (buttonPhase s now r).lastDebounceTime =
      if r ≠ s.lastButtonState then now else s.lastDebounceTime := by
  simp only [buttonPhase]
  split_ifs <;> simp_all

theorem buttonPhase_buttonState (s : Ctl) (now : Nat) (r : Bool) :
    (buttonPhase s now r).buttonState =
      if commitCond s now r then r else s.buttonState := by
  simp only [buttonPhase, commitCond]
  split_ifs <;> simp_all

theorem buttonPhase_cycle_run (s : Ctl) (now : Nat) (r : Bool) :
    (buttonPhase s now r).cycle_run =
      if pressCommit s now r then !s.cycle_run else s.cycle_run := by
  by_cases hp : pressCommit s now r
  · obtain ⟨⟨h1, h2⟩, h3⟩ := hp
    rw [if_pos ⟨⟨h1, h2⟩, h3⟩]
    simp only [buttonPhase]
    rw [if_pos h1, if_pos h2, if_pos h3]
  · rw [if_neg hp]
    simp only [buttonPhase]
    by_cases h1 :
        debounceDelay <
          now - (if r ≠ s.lastButtonState then now else s.lastDebounceTime)
    · rw [if_pos h1]
      by_cases h2 : r ≠ s.buttonState
      · rw [if_pos h2]
        by_cases h3 : r = false
        · exact absurd ⟨⟨h1, h2⟩, h3⟩ hp
        · rw [if_neg h3]
      · rw [if_neg h2]
    · rw [if_neg h1]

theorem buttonPhase_finish_time (s : Ctl) (now : Nat) (r : Bool) :
    (buttonPhase s now r).finish_time =
      if pressCommit s now r then now + target_time else s.finish_time := by
  by_cases hp : pressCommit s now r
  · obtain ⟨⟨h1, h2⟩, h3⟩ := hp
    rw [if_pos ⟨⟨h1, h2⟩, h3⟩]
    simp only [buttonPhase]
    rw [if_pos h1, if_pos h2, if_pos h3]
  · rw [if_neg hp]
    simp only [buttonPhase]
    by_cases h1 :
        debounceDelay <
          now - (if r ≠ s.lastButtonState then now else s.lastDebounceTime)
    · rw [if_pos h1]
      by_cases h2 : r ≠ s.buttonState
      · rw [if_pos h2]
        by_cases h3 : r = false
        · exact absurd ⟨⟨h1, h2⟩, h3⟩ hp
        · rw [if_neg h3]
      · rw [if_neg h2]
    · rw [if_neg h1]

theorem buttonPhase_start_time (s : Ctl) (now : Nat) (r : Bool) :
    (buttonPhase s now r).start_time = s.start_time := by
  simp only [buttonPhase]
  split_ifs <;> rfl

/-- Claim C4 (amended): behaviour of the start/finish timestamps over a full
pass of `loop`.
1. A qualifying press edge while not running starts the cycle and sets
   `finish_time = now + target_time` and `start_time = now` exactly.
2. A qualifying press edge while running stops the cycle and zeroes both
   timestamps on that same pass.
3. A timeout (`finish_time ≤ now` with no qualifying press) clears
   `cycle_run` on that pass but leaves `finish_time` at its stale value and
   `start_time = now`; the timestamps are zeroed on the next pass, by part 4.
4. Any pass that begins with `cycle_run = false` and commits no qualifying
   press ends with both timestamps zero. -/
theorem tick_timestamps :
    (∀ (s : Ctl) (now : Nat) (r : Bool) (t : ℚ),
      s.cycle_run = false → pressCommit s now r →
      (tick s now r t).cycle_run = true ∧
      (tick s now r t).finish_time = now + target_time ∧
      (tick s now r t).start_time = now) ∧
    (∀ (s : Ctl) (now : Nat) (r : Bool) (t : ℚ),
      s.cycle_run = true → pressCommit s now r →
      (tick s now r t).cycle_run = false ∧
      (tick s now r t).finish_time = 0 ∧
      (tick s now r t).start_time = 0) ∧
    (∀ (s : Ctl) (now : Nat) (r : Bool) (t : ℚ),
      s.cycle_run = true → ¬ pressCommit s now r → s.finish_time ≤ now →
      (tick s now r t).cycle_run = false ∧
      (tick s now r t).finish_time = s.finish_time ∧
      (tick s now r t).start_time = now) ∧
    (∀ (s : Ctl) (now : Nat) (r : Bool) (t : ℚ),
      s.cycle_run = false → ¬ pressCommit s now r →
      (tick s now r t).cycle_run = false ∧
      (tick s now r t).finish_time = 0 ∧
      (tick s now r t).start_time = 0) := by
  refine ⟨?_, ?_, ?_, ?_⟩ <;> intro s now r t hrun hpc
  · -- start: toggle to running, finish_time = now + target_time
    have hb1 := buttonPhase_cycle_run s now r
    have hb2 := buttonPhase_finish_time s now r
    rw [if_pos hpc] at hb1 hb2
    rw [hrun] at hb1
    unfold tick timestampPhase cyclePhase
    have hnot : ¬ (buttonPhase s now r).finish_time ≤ now := by
      rw [hb2]; unfold target_time; omega
    simp [hb1, hb2, hnot]
    split_ifs <;> simp_all [target_time]
  · -- stop by press: timestamps zeroed the same pass
    have hb1 := buttonPhase_cycle_run s now r
    rw [if_pos hpc] at hb1
    rw [hrun] at hb1
    unfold tick timestampPhase cyclePhase
    simp [hb1]
  · -- timeout: cycle_run cleared, timestamps not yet zeroed
    intro hft
    have hb1 := buttonPhase_cycle_run s now r
    have hb2 := buttonPhase_finish_time s now r
    have hb3 := buttonPhase_start_time s now r
    rw [if_neg hpc] at hb1 hb2
    rw [hrun] at hb1
    unfold tick timestampPhase cyclePhase
    simp [hb1, hb2, hb3, hft]
  · -- idle with no qualifying press: timestamps zero
    have hb1 := buttonPhase_cycle_run s now r
    rw [if_neg hpc] at hb1
    rw [hrun] at hb1
    unfold tick timestampPhase cyclePhase
    simp [hb1]

/-- A running state that has just passed its deadline, with no button
activity (raw reading steady `HIGH`). -/
def timedOutState : Ctl :=
  { buttonState := true, lastButtonState := true, lastDebounceTime := 0,
    cycle_run := true, heating := true, start_time := 1000,
    finish_time := 5000, out := ⟨true, true, true, true, false⟩ }

/-- Counterexample for C4 as stated: on the pass in which the cycle ends by
timeout (`finish_time = 5000 ≤ now = 6000`, steady raw reading), `cycle_run`
is cleared but `finish_time` is still `5000` and `start_time` is `6000` at
the end of that pass — they are only zeroed on the following pass. -/
theorem tick_timeout_not_zeroed :
    (tick timedOutState 6000 true 40).cycle_run = false ∧
    (tick timedOutState 6000 true 40).finish_time = 5000 ∧
    (tick timedOutState 6000 true 40).start_time = 6000 := by
  decide

/-- A not-running state in which a press edge (raw `LOW`, stable since time
0) is about to be committed at `now = 100`. -/
def armedState : Ctl :=
  { buttonState := true, lastButtonState := false, lastDebounceTime := 0,
    cycle_run := false, heating := false, start_time := 0, finish_time := 0,
    out := idleOutputs }

/-- Witness for the amended C4: the concrete press at `now = 100` from
`armedState` starts the cycle with `finish_time = 100 + target_time` and
`start_time = 100`. -/
theorem tick_timestamps_witness :
    (tick armedState 100 false 40).cycle_run = true ∧
    (tick armedState 100 false 40).finish_time = 100 + target_time ∧
    (tick armedState 100 false 40).start_time = 100 :=
  tick_timestamps.1 armedState 100 false 40 (by decide) (by decide)

/-- The controller states reachable from the post-`setup` state by passes
of `loop`, with arbitrary clock readings, button readings and plate
temperatures. -/
inductive Reachable : Ctl → Prop
  | base : Reachable setupState
  | step (s : Ctl) (now : Nat) (r : Bool) (t : ℚ) :
      Reachable s → Reachable (tick s now r t)

theorem cyclePhase_heating_imp (s : Ctl) (now : Nat) (t : ℚ)
    (h : (cyclePhase s now t).heating = true) :
    (cyclePhase s now t).cycle_run = true := by
  unfold cyclePhase at *
  split_ifs at * <;> simp_all

/-- Claim C6: in every reachable state (from the post-`setup` state, where
`heating = 0` and `cycle_run = 0`), `heating = true` implies
`cycle_run = true`: the heater flag is never set while the cycle is not
running.  In fact every pass of `loop` re-establishes the implication
whatever state it starts from, since only the Heating branch sets
`heating` and it requires `cycle_run` and does not clear it. -/
theorem reachable_heating_imp_running (s : Ctl) (hs : Reachable s)
    (hh : s.heating = true) : s.cycle_run = true := by
  induction hs with
  | base => simp [setupState] at hh
  | step s now r t _ _ => exact cyclePhase_heating_imp _ now t hh

/-- Witness for C6: a concrete reachable heating state — press committed at
`now = 400` after the raw reading stabilised, plate at 40 °C — satisfies
the implication non-vacuously. -/
theorem reachable_heating_imp_running_witness :
    (tick (tick (tick (tick setupState 100 true 40) 200 true 40)
        300 false 40) 400 false 40).heating = true ∧
    (tick (tick (tick (tick setupState 100 true 40) 200 true 40)
        300 false 40) 400 false 40).cycle_run = true :=
  ⟨by decide,
    reachable_heating_imp_running _
      (.step _ _ _ _ (.step _ _ _ _ (.step _ _ _ _ (.step _ _ _ _ .base))))
      (by decide)⟩

/-- Run the debounce/toggle phase over a trace of `(millis reading, raw
button reading)` pairs, one pass of `loop` per pair. -/
def runBtn (s : Ctl) (ins : List (Nat × Bool)) : Ctl :=
  ins.foldl (fun s p => buttonPhase s p.1 p.2) s

/-- The value held by `lastDebounceTime` after a trace: the time of the most
recently observed raw transition (`lb` is the reading of the previous pass,
`t` the incoming `lastDebounceTime`). -/
def lastChangeTime (lb : Bool) (t : Nat) : List (Nat × Bool) → Nat
  | [] => t
  | (now, r) :: rest => lastChangeTime r (if r ≠ lb then now else t) rest

theorem runBtn_cons (s : Ctl) (n : Nat) (r : Bool) (rest : List (Nat × Bool)) :
    runBtn s ((n, r) :: rest) = runBtn (buttonPhase s n r) rest := rfl

/-- Along any trace, `lastDebounceTime` is exactly the time of the last
observed raw transition. -/
theorem runBtn_lastDebounceTime (ins : List (Nat × Bool)) :
    ∀ s : Ctl, (runBtn s ins).lastDebounceTime =
      lastChangeTime s.lastButtonState s.lastDebounceTime ins := by
  induction ins with
  | nil => intro s; rfl
  | cons p rest ih =>
      intro s
      obtain ⟨n, r⟩ := p
      rw [runBtn_cons, ih, buttonPhase_lastButtonState,
        buttonPhase_lastDebounceTime]
      rfl

/-- A pass that changes the committed `buttonState` must read a raw value
that did not just change, and must occur strictly more than `debounceDelay`
after `lastDebounceTime`. -/
theorem buttonPhase_commit_stable (s : Ctl) (now : Nat) (r : Bool)
    (h : (buttonPhase s now r).buttonState ≠ s.buttonState) :
    r = s.lastButtonState ∧ s.lastDebounceTime + debounceDelay < now := by
  rw [buttonPhase_buttonState] at h
  by_cases hc : commitCond s now r
  · obtain ⟨h1, h2⟩ := hc
    by_cases hlb : r = s.lastButtonState
    · refine ⟨hlb, ?_⟩
      rw [if_neg (by simp [hlb])] at h1
      omega
    · rw [if_pos (by simpa using hlb), Nat.sub_self] at h1
      exact absurd h1 (by simp [debounceDelay])
  · rw [if_neg hc] at h
    exact absurd rfl h

/-- A pass whose raw reading already equals the committed `buttonState`
commits nothing: both `buttonState` and `cycle_run` are unchanged. -/
theorem buttonPhase_steady (s : Ctl) (now : Nat) (r : Bool)
    (h : s.buttonState = r) :
    (buttonPhase s now r).buttonState = s.buttonState ∧
    (buttonPhase s now r).cycle_run = s.cycle_run := by
  have hnc : ¬ commitCond s now r := fun hc => hc.2 h.symm
  constructor
  · rw [buttonPhase_buttonState, if_neg hnc]
  · rw [buttonPhase_cycle_run, if_neg (fun hp => hnc hp.1)]

/-- No pass whose time lies within `debounceDelay` of a raw transition at
time `t1` (witnessed by `t1 ≤ lastDebounceTime`) can commit anything. -/
theorem buttonPhase_window (s : Ctl) (now : Nat) (r : Bool) (t1 : Nat)
    (hldt : t1 ≤ s.lastDebounceTime) (hlo : t1 ≤ now)
    (hhi : now ≤ t1 + debounceDelay) :
    (buttonPhase s now r).buttonState = s.buttonState ∧
    (buttonPhase s now r).cycle_run = s.cycle_run ∧
    t1 ≤ (buttonPhase s now r).lastDebounceTime := by
  have hnc : ¬ commitCond s now r := by
    intro hc
    obtain ⟨h1, _⟩ := hc
    by_cases hlb : r ≠ s.lastButtonState
    · rw [if_pos hlb, Nat.sub_self] at h1
      exact absurd h1 (by simp [debounceDelay])
    · rw [if_neg hlb] at h1
      omega
  refine ⟨?_, ?_, ?_⟩
  · rw [buttonPhase_buttonState, if_neg hnc]
  · rw [buttonPhase_cycle_run, if_neg (fun hp => hnc hp.1)]
  · rw [buttonPhase_lastDebounceTime]
    split <;> omega

/-- Claim C5 (debounce law), in four parts.
1. Stability: after any trace, a pass that changes the debounced
   `buttonState` reads a raw value equal to the previous reading and occurs
   strictly more than `debounceDelay` ms after the last observed raw
   transition (whose time `lastDebounceTime` tracks exactly, by
   `runBtn_lastDebounceTime`): the raw signal has been stable for at least
   `debounceDelay` ms.
2. A qualifying press edge toggles `cycle_run` (exactly once at the
   committing pass, by part 3).
3. While the raw reading stays equal to the committed `buttonState` —
   as it does from the pass that committed a press onwards, for a single
   press — `cycle_run` is never toggled again.
4. Within `debounceDelay` ms of an observed raw transition at time `t1`,
   no pass commits: two raw edges less than `debounceDelay` apart yield no
   qualifying edge inside the window, so a bouncing pair is counted at most
   once (only after the signal has been stable again). -/
theorem debounce_law :
    (∀ (s : Ctl) (ins : List (Nat × Bool)) (now : Nat) (r : Bool),
      (buttonPhase (runBtn s ins) now r).buttonState ≠
          (runBtn s ins).buttonState →
      r = (runBtn s ins).lastButtonState ∧
      lastChangeTime s.lastButtonState s.lastDebounceTime ins +
          debounceDelay < now) ∧
    (∀ (s : Ctl) (now : Nat) (r : Bool), pressCommit s now r →
      (buttonPhase s now r).cycle_run = !s.cycle_run) ∧
    (∀ (s : Ctl) (ins : List (Nat × Bool)) (r : Bool), s.buttonState = r →
      (∀ p ∈ ins, p.2 = r) →
      (runBtn s ins).cycle_run = s.cycle_run ∧
      (runBtn s ins).buttonState = s.buttonState) ∧
    (∀ (s : Ctl) (ins : List (Nat × Bool)) (t1 : Nat),
      t1 ≤ s.lastDebounceTime →
      (∀ p ∈ ins, t1 ≤ p.1 ∧ p.1 ≤ t1 + debounceDelay) →
      (runBtn s ins).buttonState = s.buttonState ∧
      (runBtn s ins).cycle_run = s.cycle_run) := by
  refine ⟨?_, ?_, ?_, ?_⟩
  · intro s ins now r h
    have := buttonPhase_commit_stable (runBtn s ins) now r h
    rwa [runBtn_lastDebounceTime] at this
  · intro s now r hp
    rw [buttonPhase_cycle_run, if_pos hp]
  · intro s ins
    induction ins generalizing s with
    | nil => intro r h _; exact ⟨rfl, rfl⟩
    | cons p rest ih =>
        intro r h hall
        obtain ⟨n, rr⟩ := p
        have hr : rr = r := hall (n, rr) (List.mem_cons_self _ _)
        subst hr
        have hs := buttonPhase_steady s n rr h
        rw [runBtn_cons]
        have := ih (buttonPhase s n rr) rr (hs.1.trans h)
          (fun q hq => hall q (List.mem_cons_of_mem _ hq))
        exact ⟨this.1.trans hs.2, this.2.trans hs.1⟩
  · intro s ins
    induction ins generalizing s with
    | nil => intro t1 _ _; exact ⟨rfl, rfl⟩
    | cons p rest ih =>
        intro t1 hldt hall
        obtain ⟨n, r⟩ := p
        obtain ⟨hlo, hhi⟩ := hall (n, r) (List.mem_cons_self _ _)
        have hw := buttonPhase_window s n r t1 hldt hlo hhi
        rw [runBtn_cons]
        have := ih (buttonPhase s n r) t1 hw.2.2
          (fun q hq => hall q (List.mem_cons_of_mem _ hq))
        exact ⟨this.1.trans hw.1, this.2.trans hw.2.1⟩

/-- A not-running state with a stable `LOW` raw reading about to be
committed, used to instantiate the debounce law. -/
def pressReadyState : Ctl :=
  { buttonState := true, lastButtonState := false, lastDebounceTime := 10,
    cycle_run := false, heating := false, start_time := 0, finish_time := 0,
    out := idleOutputs }

/-- Witness for C5: at `pressReadyState` the press at `now = 100` is a
qualifying edge and toggles `cycle_run` from `false` to `true`. -/
theorem debounce_law_witness :
    pressCommit pressReadyState 100 false ∧
    (buttonPhase pressReadyState 100 false).cycle_run = true :=
  ⟨by decide,
    (debounce_law.2.1 pressReadyState 100 false (by decide)).trans (by decide)⟩

/-- Lines 242-246 of `UVCuring.ino`: the mean of the ADC sample buffer
(`average += samples[i]` over the buffer, then `average /= NUMSAMPLES` with
`NUMSAMPLES = 5`), in exact rational arithmetic. -/
def averageOf (samples : List ℕ) : ℚ :=
  (samples.foldl (fun (acc : ℚ) (s : ℕ) => acc + (s : ℚ)) 0) / 5

/-- Line 249 of `UVCuring.ino`: `res = RESISTANCE / (1023 / average - 1)`
with `RESISTANCE = 100000`. -/
def resOf (samples : List ℕ) : ℚ :=
  100000 / (1023 / averageOf samples - 1)

/-- The sample buffer for scenario A: five raw ADC readings of 512. -/
def l512 : List ℕ := [512, 512, 512, 512, 512]

theorem foldl_cast_sum (l : List ℕ) :
    ∀ c : ℚ, l.foldl (fun (acc : ℚ) (s : ℕ) => acc + (s : ℚ)) c
      = c + (l.sum : ℚ) := by
  induction l with
  | nil => intro c; simp
  | cons a rest ih =>
      intro c
      rw [List.foldl_cons, ih, List.sum_cons]
      push_cast
      ring

theorem averageOf_eq_sum (l : List ℕ) : averageOf l = (l.sum : ℚ) / 5 := by
  rw [averageOf, foldl_cast_sum, zero_add]

/-- Claim C7: whenever the ADC mean lies strictly between 0 and 1023 (the
mean of five samples, so `1 ≤ sum` and `sum ≤ 5114`), every denominator in
the conversion pipeline of `check_Temperature` is nonzero and every
logarithm argument is positive: the mean is positive, `1023/average - 1`
is positive, the resistance is positive (so `log (res / R0)` is a logarithm
of a positive number), and the final Steinhart-Hart denominator
`log (res / 100000) / 3950 + 1 / (25 + 273.15)` is strictly positive, so
resistance and temperature are well-defined finite real numbers. -/
theorem check_Temperature_welldefined (l : List ℕ) (hlen : l.length = 5)
    (hmem : ∀ x ∈ l, x ≤ 1023) (hpos : 1 ≤ l.sum) (hlt : l.sum ≤ 5114) :
    0 < averageOf l ∧
    0 < 1023 / averageOf l - 1 ∧
    0 < resOf l ∧
    0 < Real.log ((resOf l : ℝ) / 100000) / 3950 + 1 / (25 + 273.15) := by
  have hsum1 : (1 : ℚ) ≤ (l.sum : ℚ) := by exact_mod_cast hpos
  have hsum2 : ((l.sum : ℚ)) ≤ 5114 := by exact_mod_cast hlt
  have havg := averageOf_eq_sum l
  have ha0 : 0 < averageOf l := by rw [havg]; linarith
  have halb : (1 : ℚ) / 5 ≤ averageOf l := by rw [havg]; linarith
  have haub : averageOf l ≤ 5114 / 5 := by rw [havg]; linarith
  have hgt1 : (1 : ℚ) < 1023 / averageOf l :=
    (one_lt_div ha0).mpr (by linarith)
  have hden : 0 < 1023 / averageOf l - 1 := by linarith
  have hres_pos : 0 < resOf l := by
    rw [resOf]; exact div_pos (by norm_num) hden
  have hD_le : 1023 / averageOf l - 1 ≤ 5114 := by
    have h5115 : 1023 / averageOf l ≤ 5115 := by
      rw [div_le_iff ha0]; linarith
    linarith
  have hfrac : resOf l / 100000 = 1 / (1023 / averageOf l - 1) := by
    rw [resOf]
    rw [div_div]
    rw [mul_comm]
    rw [← div_div]
    rw [div_self (by norm_num : (100000 : ℚ) ≠ 0)]
  have hq : (1 / 5114 : ℚ) ≤ resOf l / 100000 := by
    rw [hfrac]
    exact one_div_le_one_div_of_le hden hD_le
  refine ⟨ha0, hden, hres_pos, ?_⟩
  have hR_lb : (1 / 5114 : ℝ) ≤ (resOf l : ℝ) / 100000 := by
    have h0 : ((1 / 5114 : ℚ) : ℝ) ≤ ((resOf l / 100000 : ℚ) : ℝ) :=
      Rat.cast_le.mpr hq
    push_cast at h0
    exact h0
  have hexp9 : (5114 : ℝ) ≤ Real.exp 9 := by
    have h1 : Real.exp ((9 : ℕ) * (1 : ℝ)) = Real.exp 1 ^ (9 : ℕ) :=
      Real.exp_nat_mul 1 9
    have h2 : ((9 : ℕ) : ℝ) * 1 = 9 := by norm_num
    rw [h2] at h1
    have h3 : (2.7182818283 : ℝ) ^ (9 : ℕ) ≤ Real.exp 1 ^ (9 : ℕ) :=
      pow_le_pow_left (by norm_num) Real.exp_one_gt_d9.le 9
    have h4 : (5114 : ℝ) ≤ (2.7182818283 : ℝ) ^ (9 : ℕ) := by norm_num
    linarith [h1.ge, h1.le]
  have hlog5114 : Real.log (5114 : ℝ) ≤ 9 :=
    (Real.log_le_iff_le_exp (by norm_num)).mpr hexp9
  have hmon : Real.log ((1 : ℝ) / 5114) ≤
      Real.log ((resOf l : ℝ) / 100000) :=
    Real.log_le_log (by norm_num) hR_lb
  have hinv : Real.log ((1 : ℝ) / 5114) = -Real.log (5114 : ℝ) := by
    rw [one_div, Real.log_inv]
  have hkey : (9 : ℝ) / 3950 < 1 / (25 + 273.15) := by norm_num
  have hlogR : (-9 : ℝ) ≤ Real.log ((resOf l : ℝ) / 100000) := by
    rw [hinv] at hmon; linarith
  linarith

/-- Witness for C7: the all-512 sample buffer satisfies the range
hypotheses and yields positive denominators throughout the pipeline. -/
theorem check_Temperature_welldefined_witness :
    0 < averageOf l512 ∧
    0 < 1023 / averageOf l512 - 1 ∧
    0 < resOf l512 ∧
    0 < Real.log ((resOf l512 : ℝ) / 100000) / 3950 + 1 / (25 + 273.15) :=
  check_Temperature_welldefined l512 (by decide) (by decide) (by decide)
    (by decide)

theorem steinhart512_bounds :
    (24.95 : ℝ) <
      1 / (Real.log ((resOf l512 : ℝ) / 100000) / 3950 +
        1 / (25 + 273.15)) - 273.15 ∧
    1 / (Real.log ((resOf l512 : ℝ) / 100000) / 3950 +
        1 / (25 + 273.15)) - 273.15 < (24.96 : ℝ) := by
  have hres : (resOf l512 : ℚ) = 51200000 / 511 := by
    norm_num [resOf, averageOf, l512]
  have hx : (resOf l512 : ℝ) / 100000 = 512 / 511 := by
    rw [hres]; push_cast; norm_num
  rw [hx]
  have hub : Real.log ((512 : ℝ) / 511) ≤ 1 / 511 := by
    have h := Real.log_le_sub_one_of_pos
      (show (0 : ℝ) < 512 / 511 by norm_num)
    have : (512 : ℝ) / 511 - 1 = 1 / 511 := by norm_num
    linarith
  have hlb : (1 / 512 : ℝ) ≤ Real.log ((512 : ℝ) / 511) := by
    have h2 := Real.log_le_sub_one_of_pos
      (show (0 : ℝ) < 511 / 512 by norm_num)
    have h3 : Real.log ((512 : ℝ) / 511) = -Real.log ((511 : ℝ) / 512) := by
      rw [← Real.log_inv]; norm_num
    have h4 : (511 : ℝ) / 512 - 1 = -(1 / 512) := by norm_num
    rw [h3]; linarith
  have hDpos : (0 : ℝ) <
      Real.log ((512 : ℝ) / 511) / 3950 + 1 / (25 + 273.15) := by
    have : (0 : ℝ) < 1 / 512 / 3950 + 1 / (25 + 273.15) := by norm_num
    linarith
  constructor
  · have h1 : 1 / ((1 : ℝ) / 511 / 3950 + 1 / (25 + 273.15)) ≤
        1 / (Real.log ((512 : ℝ) / 511) / 3950 + 1 / (25 + 273.15)) :=
      one_div_le_one_div_of_le hDpos (by linarith)
    have h2 : (24.95 : ℝ) + 273.15 <
        1 / ((1 : ℝ) / 511 / 3950 + 1 / (25 + 273.15)) := by norm_num
    linarith
  · have h1 : 1 / (Real.log ((512 : ℝ) / 511) / 3950 + 1 / (25 + 273.15)) ≤
        1 / ((1 : ℝ) / 512 / 3950 + 1 / (25 + 273.15)) :=
      one_div_le_one_div_of_le (by norm_num) (by linarith)
    have h2 : 1 / ((1 : ℝ) / 512 / 3950 + 1 / (25 + 273.15)) <
        (24.96 : ℝ) + 273.15 := by norm_num
    linarith

/-- Counterexample for C9 as stated: at the all-512 buffer the
Steinhart-Hart temperature computed by the pipeline of `check_Temperature`
exceeds 24.85 °C by more than 0.1 °C (its value is ≈ 24.956 °C), so it is
not "approximately 24.85 °C" even at a generous ±0.1 reading of the claimed
two-decimal figure. -/
theorem steinhart512_not_near_24_85 :
    (24.85 : ℝ) + 1 / 10 <
      1 / (Real.log ((resOf l512 : ℝ) / 100000) / 3950 +
        1 / (25 + 273.15)) - 273.15 := by
  have h := steinhart512_bounds.1
  have : (24.85 : ℝ) + 1 / 10 = 24.95 := by norm_num
  linarith

/-- Claim C9 (amended): for the all-512 buffer the computed resistance is
within 0.5 Ω of 100196 Ω (its exact value is 51200000/511 ≈ 100195.69 Ω),
and the Steinhart-Hart conversion with R0 = 100000, T0 = 298.15 K, B = 3950
yields a temperature strictly between 24.95 °C and 24.96 °C
(≈ 24.96 °C, not ≈ 24.85 °C). -/
theorem check_Temperature_scenarioA :
    |resOf l512 - 100196| < 1 / 2 ∧
    (24.95 : ℝ) <
      1 / (Real.log ((resOf l512 : ℝ) / 100000) / 3950 +
        1 / (25 + 273.15)) - 273.15 ∧
    1 / (Real.log ((resOf l512 : ℝ) / 100000) / 3950 +
        1 / (25 + 273.15)) - 273.15 < (24.96 : ℝ) := by
  refine ⟨?_, steinhart512_bounds.1, steinhart512_bounds.2⟩
  have hres : resOf l512 = 51200000 / 511 := by
    norm_num [resOf, averageOf, l512]
  rw [hres, abs_lt]
  constructor <;> norm_num

/-- Extended float value for the IEEE special-value analysis of
`check_Temperature`: exact rationals plus `+inf`, `-inf` and NaN.  Zeros
are unsigned; on the analysed all-0 / all-1023 paths every zero that
arises is IEEE `+0`, for which the operations below agree with IEEE 754
(rounding of finite results is not modelled — the finite values on these
paths are exactly representable or irrelevant to the special-value flow). -/
inductive EF where
  | fin (q : ℚ)
  | pinf
  | minf
  | nan
  deriving DecidableEq

/-- IEEE addition on extended values. -/
def EF.add : EF → EF → EF
  | nan, _ => nan
  | _, nan => nan
  | pinf, minf => nan
  | minf, pinf => nan
  | pinf, _ => pinf
  | _, pinf => pinf
  | minf, _ => minf
  | _, minf => minf
  | fin a, fin b => fin (a + b)

/-- IEEE negation on extended values. -/
def EF.neg : EF → EF
  | nan => nan
  | pinf => minf
  | minf => pinf
  | fin a => fin (-a)

/-- IEEE subtraction on extended values. -/
def EF.sub (x y : EF) : EF := EF.add x (EF.neg y)

/-- IEEE division on extended values (with an unsigned zero treated as
`+0`, the only zero arising on the analysed paths): `x / +0` is `+inf` for
positive finite `x`, `0 / 0` is NaN, and `finite / ±inf` is zero. -/
def EF.div : EF → EF → EF
  | nan, _ => nan
  | _, nan => nan
  | pinf, pinf => nan
  | pinf, minf => nan
  | minf, pinf => nan
  | minf, minf => nan
  | pinf, fin b => if b < 0 then minf else pinf
  | minf, fin b => if b < 0 then pinf else minf
  | fin _, pinf => fin 0
  | fin _, minf => fin 0
  | fin a, fin b =>
      if b = 0 then (if a = 0 then nan else if a < 0 then minf else pinf)
      else fin (a / b)

/-- IEEE `log` on extended values: `log +0 = -inf`, `log +inf = +inf`,
`log` of a negative value is NaN; on strictly positive finite arguments it
defers to the oracle `lg` (never consulted on the analysed extreme paths). -/
def EF.logE (lg : ℚ → ℚ) : EF → EF
  | nan => nan
  | pinf => pinf
  | minf => nan
  | fin q => if q < 0 then nan else if q = 0 then minf else fin (lg q)

/-- The C `(int)` conversion applied to a finite float value: truncation
toward zero. -/
def truncQ (q : ℚ) : ℤ := if 0 ≤ q then ⌊q⌋ else -⌊-q⌋

/-- Lines 242-265 of `UVCuring.ino` (`check_Temperature`) executed in IEEE
special-value semantics: average the samples, convert to resistance by
`res = 100000 / (1023 / average - 1)`, then the B-parameter Steinhart-Hart
chain `steinhart = 1 / (log (res / 100000) / 3950 + 1 / (25 + 273.15))
- 273.15`. -/
def check_Temperature_ef (lg : ℚ → ℚ) (samples : List ℕ) : EF :=
  let average := EF.div
    (.fin (samples.foldl (fun (acc : ℚ) (s : ℕ) => acc + (s : ℚ)) 0)) (.fin 5)
  let res := EF.div (.fin 100000)
    (EF.sub (EF.div (.fin 1023) average) (.fin 1))
  let s1 := EF.div res (.fin 100000)
  let s2 := EF.logE lg s1
  let s3 := EF.div s2 (.fin 3950)
  let s4 := EF.add s3 (.fin (1 / (25 + 273.15 : ℚ)))
  let s5 := EF.div (.fin 1) s4
  EF.sub s5 (.fin (273.15 : ℚ))

/-- The `return (steinhart);` of the `int`-declared `check_Temperature`:
the C float→int conversion truncates toward zero and is undefined (`none`)
for NaN or infinite values. -/
def check_T_ret (lg : ℚ → ℚ) (samples : List ℕ) : Option ℤ :=
  match check_Temperature_ef lg samples with
  | .fin q => some (truncQ q)
  | _ => none

/-- Sample buffer with the ADC pinned at the low extreme. -/
def zeroSamples : List ℕ := [0, 0, 0, 0, 0]

/-- Sample buffer with the ADC pinned at the high extreme. -/
def maxSamples : List ℕ := [1023, 1023, 1023, 1023, 1023]

/-- Claim C8: at both ADC extremes the division by zero in the resistance
formula does not crash the conversion and no NaN or infinity escapes:
the infinities produced inside the pipeline collapse (`1 / ±inf = 0`) so
`check_Temperature` saturates to the defined extreme temperature
`-273.15 °C` (returned as the int `-273`, whatever the finite-log oracle
`lg` is), and that finite extreme value compares as "below target" in the
heating decision logic instead of a NaN/Inf flowing into it. -/
theorem check_Temperature_extremes (lg : ℚ → ℚ) :
    check_Temperature_ef lg zeroSamples = .fin (-273.15 : ℚ) ∧
    check_Temperature_ef lg maxSamples = .fin (-273.15 : ℚ) ∧
    check_T_ret lg zeroSamples = some (-273) ∧
    check_T_ret lg maxSamples = some (-273) ∧
    ((-273 : ℚ) < target_temp) := by
  have htr : truncQ (-273.15 : ℚ) = -273 := by norm_num [truncQ]
  have hz : check_Temperature_ef lg zeroSamples = .fin (-273.15 : ℚ) := by
    norm_num [check_Temperature_ef, zeroSamples, EF.div, EF.sub, EF.add,
      EF.neg, EF.logE]
  have hm : check_Temperature_ef lg maxSamples = .fin (-273.15 : ℚ) := by
    norm_num [check_Temperature_ef, maxSamples, EF.div, EF.sub, EF.add,
      EF.neg, EF.logE]
  refine ⟨hz, hm, ?_, ?_, by norm_num [target_temp]⟩
  · simp [check_T_ret, hz, htr]
  · simp [check_T_ret, hm, htr]

/-- Witness for C8: the extreme-path saturation evaluated at a concrete
logarithm oracle. -/
theorem check_Temperature_extremes_witness :
    check_T_ret (fun q => q) zeroSamples = some (-273) :=
  (check_Temperature_extremes (fun q => q)).2.2.1

/-- The `check_Temperature` of the `src/unnamed/part_000` variant
(lines 173-221): `THERMISTORNOMINAL = 10000`, resistor value `r` passed as
a parameter, and — decisive for claim C10 — line 215 reads
`steinhart =+ 1.0 / TEMPERATURENOMINAL + 273.15;`, which C parses as the
plain assignment `steinhart = (+(1.0 / 25)) + 273.15`, overwriting the
`ln(R/R0)/B` term just computed from the measurement.  The logarithm of
the (discarded) measurement chain is again an oracle `lg`; the function
returns `int`, i.e. the truncated value. -/
def check_Temperature_v0 (lg : ℚ → ℚ) (r : ℚ) (samples : List ℕ) : ℤ :=
  let average0 : ℚ :=
    (samples.foldl (fun (acc : ℚ) (s : ℕ) => acc + (s : ℚ)) 0) / 5
  let average1 : ℚ := 1023 / average0 - 1
  let average2 : ℚ := r / average1
  let s1 : ℚ := average2 / 10000
  let s2 : ℚ := lg s1
  let s3 : ℚ := s2 / 3950
  let s4 : ℚ := 1 / 25 + 273.15
  let s5 : ℚ := 1 / s4
  let s6 : ℚ := s5 - 273.15
  truncQ s6

/-- Claim C10: in the `part_000` variant the return value of
`check_Temperature` is independent of the sampled ADC readings — any two
sample buffers give the same result, namely the constant
`trunc (1 / (1/25 + 273.15) - 273.15) = -273` — because the
`steinhart =+ ...` statement assigns rather than adds, discarding the
measurement-dependent `ln(R/R0)/B` term (for any finite-log oracle and any
resistor parameter). -/
theorem check_Temperature_v0_constant :
    (∀ (lg : ℚ → ℚ) (r : ℚ) (s1 s2 : List ℕ),
      check_Temperature_v0 lg r s1 = check_Temperature_v0 lg r s2) ∧
    (∀ (lg : ℚ → ℚ) (r : ℚ) (samples : List ℕ),
      check_Temperature_v0 lg r samples = -273) := by
  have hval : ∀ (lg : ℚ → ℚ) (r : ℚ) (samples : List ℕ),
      check_Temperature_v0 lg r samples = -273 := by
    intro lg r samples
    norm_num [check_Temperature_v0, truncQ]
  exact ⟨fun lg r s1 s2 => (hval lg r s1).trans (hval lg r s2).symm, hval⟩

/-- Witness for C10: two concrete, different sample buffers (pinned-low and
mid-scale) produce the same return value. -/
theorem check_Temperature_v0_constant_witness :
    check_Temperature_v0 (fun q => q) 100000 [0, 0, 0, 0, 0] =
      check_Temperature_v0 (fun q => q) 100000 [512, 512, 512, 512, 512] :=
  check_Temperature_v0_constant.1 (fun q => q) 100000
    [0, 0, 0, 0, 0] [512, 512, 512, 512, 512]

end UVCuring
